import Mathlib

/-!
Verification development for the WanderLanka itinerary service.

The definitions below are a shallow embedding of the JavaScript source:
JS numbers are modelled as exact rationals (`ℚ`), JS timestamps (millisecond
date values) as integers (`ℤ`), possibly-absent values as `Option`, and
fallible provider calls as `Except`.  `Math.round` is modelled as
`⌊q + 1/2⌋` (round half towards positive infinity), `Math.floor` as `⌊·⌋`
and `Math.ceil` as `⌈·⌉`, which agree with the JavaScript functions on all
finite inputs.
-/

namespace ItineraryService

/-- JavaScript `Math.round`: round half towards positive infinity. -/
def jsRound (q : ℚ) : ℤ := Rat.floor (q + 1/2)

/-- JavaScript `Math.floor` on a rational. -/
def jsFloor (q : ℚ) : ℤ := Rat.floor q

/-- JavaScript `Math.ceil` on a rational (via the identity
`ceil q = -floor (-q)`, kept executable through `Rat.floor`). -/
def jsCeil (q : ℚ) : ℤ := -Rat.floor (-q)

/-- The transportation preference enum of the itinerary schema
(`public`, `private`, `rental`, `mixed`). -/
inductive Transportation where
  | publicT
  | privateT
  | rental
  | mixed
deriving DecidableEq, Repr

/-- The preference bundle of an itinerary (the part the core reads). -/
structure Preferences where
  transportation : Option Transportation
deriving DecidableEq, Repr

/-- A latitude/longitude pair. -/
structure Coord where
  latitude : ℚ
  longitude : ℚ
deriving DecidableEq, Repr

/-- A place on a day plan (placeSchema of the Itinerary model). -/
structure Place where
  placeId : String
  name : String
  location : Option Coord
  types : List String
  rating : Option ℚ
deriving DecidableEq, Repr

/-- A day plan (dayPlanSchema): day number and its ordered places. -/
structure DayPlan where
  dayNumber : ℤ
  places : List Place
deriving DecidableEq, Repr

/-- `startLocation` / `endLocation` of an itinerary. -/
structure NamedLocation where
  name : String
  placeId : Option String
  latitude : ℚ
  longitude : ℚ
deriving DecidableEq, Repr

/-- An entry of the legacy flat `destinations` list of an itinerary. -/
structure Destination where
  placeId : Option String
  name : String
  latitude : ℚ
  longitude : ℚ
deriving DecidableEq, Repr

/-- Itinerary status enum. -/
inductive Status where
  | draft
  | planned
  | active
  | completed
  | cancelled
deriving DecidableEq, Repr

/-- Route type enum (`recommended`, `shortest`, `scenic`), also the value
space of the itinerary's `selectedRoute` tag. -/
inductive RouteType where
  | recommended
  | shortest
  | scenic
deriving DecidableEq, Repr

/-- The cost table `costPerKm` of `estimateRouteCosts`
(route.controller.js): every transportation type costs 300 per km. -/
def costPerKm : Transportation → ℚ
  | .publicT => 300
  | .privateT => 300
  | .rental => 300
  | .mixed => 300

/-- The cost breakdown returned by `estimateRouteCosts`. -/
structure Costs where
  fuel : ℤ
  tolls : ℤ
  parking : ℤ
  total : ℤ
deriving DecidableEq, Repr

/-- `preferences?.transportation || 'mixed'` of `estimateRouteCosts`. -/
def transportOf (preferences : Option Preferences) : Transportation :=
  match preferences with
  | some p => p.transportation.getD .mixed
  | none => .mixed

/-- `estimateRouteCosts` from route.controller.js: fuel from the per-km
table, a 500-unit toll per full 100 km, a flat 200 parking charge, and the
rounded grand total. -/
def estimateRouteCosts (distanceMeters : ℚ) (preferences : Option Preferences) : Costs :=
  let distanceKm := distanceMeters / 1000
  let transportationType := transportOf preferences
  let fuelCost := distanceKm * costPerKm transportationType
  let tolls := jsFloor (distanceKm / 100) * 500
  let parking : ℤ := 200
  { fuel := jsRound fuelCost
    tolls := tolls
    parking := parking
    total := jsRound (fuelCost + (tolls : ℚ) + (parking : ℚ)) }

/-- An itinerary document, with the fields read by the core under
verification.  JS timestamps (millisecond date values) are integers,
possibly-absent fields are `Option`. -/
structure Itinerary where
  id : String
  userId : String
  tripName : String
  startDate : Option ℤ
  endDate : Option ℤ
  startLocation : Option NamedLocation
  endLocation : Option NamedLocation
  destinations : List Destination
  preferences : Option Preferences
  dayPlans : List DayPlan
  selectedRoute : Option RouteType
  status : Status
  createdAt : ℤ
  updatedAt : ℤ
deriving DecidableEq, Repr

/-- The number of completed checklist units counted by
`calculateCompletionPercentage` (Itinerary model): one for a non-empty trip
name, one per present date, one when both locations are present, one when a
day plan exists, one when some day plan has a place, one when a route is
selected. -/
def completedSteps (it : Itinerary) : ℕ :=
  (if it.tripName ≠ "" then 1 else 0)
    + (if it.startDate.isSome then 1 else 0)
    + (if it.endDate.isSome then 1 else 0)
    + (if it.startLocation.isSome ∧ it.endLocation.isSome then 1 else 0)
    + (if it.dayPlans ≠ [] then 1 else 0)
    + (if it.dayPlans.any (fun day => !day.places.isEmpty) then 1 else 0)
    + (if it.selectedRoute.isSome then 1 else 0)

/-- `calculateCompletionPercentage` of the Itinerary model:
`round((completedSteps / 7) × 100)`. -/
def calculateCompletionPercentage (it : Itinerary) : ℤ :=
  jsRound ((completedSteps it : ℚ) / 7 * 100)

/-- `isUpcoming = startDate > now` (getMyTrips); an absent/invalid date
compares false. -/
def isUpcomingAt (now : ℤ) (it : Itinerary) : Bool :=
  match it.startDate with
  | some s => decide (now < s)
  | none => false

/-- `isActive = startDate ≤ now ∧ now ≤ endDate` (getMyTrips); an
absent/invalid date compares false. -/
def isActiveAt (now : ℤ) (it : Itinerary) : Bool :=
  match it.startDate, it.endDate with
  | some s, some e => decide (s ≤ now) && decide (now ≤ e)
  | _, _ => false

/-- `isCompleted = endDate < now` (getMyTrips); an absent/invalid date
compares false. -/
def isCompletedAt (now : ℤ) (it : Itinerary) : Bool :=
  match it.endDate with
  | some e => decide (e < now)
  | none => false

/-- `Math.ceil((endDate − now) / (1000·60·60·24))`, the `daysRemaining` of a
currently-active upcoming trip. -/
def daysRemainingAt (now e : ℤ) : ℤ :=
  jsCeil (((e - now : ℤ) : ℚ) / 86400000)

/-- The trip record pushed into the classification buckets (the fields of
`tripData` the classifier logic reads or sets). -/
structure TripData where
  itinerary : Itinerary
  completionPercentage : ℤ
  hasRoute : Bool
  isUpcoming : Bool
  isActive : Bool
  isCompleted : Bool
  isCurrentlyActive : Bool
  daysRemaining : Option ℤ
deriving DecidableEq, Repr

/-- The `tripData` record built for each itinerary in `getMyTrips`;
`routeMap` is the pre-fetched itinerary-id → route-existence map. -/
def mkTripData (now : ℤ) (routeMap : String → Bool) (it : Itinerary) : TripData :=
  { itinerary := it
    completionPercentage := calculateCompletionPercentage it
    hasRoute := routeMap it.id
    isUpcoming := isUpcomingAt now it
    isActive := isActiveAt now it
    isCompleted := isCompletedAt now it
    isCurrentlyActive := false
    daysRemaining := none }

/-- The spread copy `{...tripData, isCurrentlyActive: true, daysRemaining}`
pushed for a currently-active trip. -/
def mkActiveTripData (now : ℤ) (routeMap : String → Bool) (it : Itinerary) : TripData :=
  { mkTripData now routeMap it with
    isCurrentlyActive := true
    daysRemaining := match it.endDate with
      | some e => some (daysRemainingAt now e)
      | none => none }

/-- The three classification buckets of `getMyTrips`. -/
structure Buckets where
  savedPlans : List TripData
  unfinishedTrips : List TripData
  upcomingTrips : List TripData
deriving DecidableEq, Repr

/-- One iteration of the categorization loop of `getMyTrips`
(myTrips.controller.js, the `for (const itinerary of allItineraries)` body):
the draft/planned if-else chain pushing into unfinished or saved, followed by
the upcoming if-else chain. -/
def classifyStep (now : ℤ) (routeMap : String → Bool) (b : Buckets) (it : Itinerary) : Buckets :=
  let b1 :=
    if it.status = Status.draft ∧ calculateCompletionPercentage it < 100 then
      { b with unfinishedTrips := b.unfinishedTrips ++ [mkTripData now routeMap it] }
    else if it.status = Status.planned ∨
        (it.status = Status.draft ∧ calculateCompletionPercentage it = 100) then
      if isUpcomingAt now it ∨
          (¬isUpcomingAt now it ∧ ¬isActiveAt now it ∧ ¬isCompletedAt now it) then
        { b with savedPlans := b.savedPlans ++ [mkTripData now routeMap it] }
      else b
    else b
  if isUpcomingAt now it ∧ (it.status = Status.planned ∨ it.status = Status.active) then
    { b1 with upcomingTrips := b1.upcomingTrips ++ [mkTripData now routeMap it] }
  else if isActiveAt now it ∧ it.status = Status.active then
    { b1 with upcomingTrips := b1.upcomingTrips ++ [mkActiveTripData now routeMap it] }
  else b1

/-- The categorization loop of `getMyTrips` over a user's itineraries
(bucket construction; the subsequent per-bucket sorts reorder but do not
change membership). -/
def categorizeTrips (now : ℤ) (routeMap : String → Bool) (its : List Itinerary) : Buckets :=
  its.foldl (classifyStep now routeMap) ⟨[], [], []⟩

/-- The per-itinerary contribution to the unfinished bucket. -/
def unfinishedPush (now : ℤ) (routeMap : String → Bool) (it : Itinerary) : List TripData :=
  if it.status = Status.draft ∧ calculateCompletionPercentage it < 100 then
    [mkTripData now routeMap it]
  else []

/-- The per-itinerary contribution to the saved bucket. -/
def savedPush (now : ℤ) (routeMap : String → Bool) (it : Itinerary) : List TripData :=
  if (it.status = Status.planned ∨
      (it.status = Status.draft ∧ calculateCompletionPercentage it = 100)) ∧
      (isUpcomingAt now it ∨
        (¬isUpcomingAt now it ∧ ¬isActiveAt now it ∧ ¬isCompletedAt now it)) then
    [mkTripData now routeMap it]
  else []

/-- The per-itinerary contribution to the upcoming bucket. -/
def upcomingPush (now : ℤ) (routeMap : String → Bool) (it : Itinerary) : List TripData :=
  if isUpcomingAt now it ∧ (it.status = Status.planned ∨ it.status = Status.active) then
    [mkTripData now routeMap it]
  else if isActiveAt now it ∧ it.status = Status.active then
    [mkActiveTripData now routeMap it]
  else []

/-- A waypoint of the final list assembled by `calculateRoutes`
(route.controller.js): the projection `{latitude, longitude, name, placeId}`. -/
structure Waypoint where
  latitude : ℚ
  longitude : ℚ
  name : String
  placeId : Option String
deriving DecidableEq, Repr

/-- The truthiness test `place.location && place.location.latitude &&
place.location.longitude` guarding waypoint extraction (a JS number is
truthy when non-zero). -/
def hasValidCoords (p : Place) : Bool :=
  match p.location with
  | some loc => decide (loc.latitude ≠ 0) && decide (loc.longitude ≠ 0)
  | none => false

/-- The waypoint pushed for a located day-plan place, with the fallback
display name `Place ${dayIdx+1}-${placeIdx+1}` when the place name is
falsy. -/
def placeWaypoint (dayIdx placeIdx : ℕ) (p : Place) : Option Waypoint :=
  match p.location with
  | some loc =>
    if loc.latitude ≠ 0 ∧ loc.longitude ≠ 0 then
      some { latitude := loc.latitude
             longitude := loc.longitude
             name := if p.name = "" then
                 "Place " ++ toString (dayIdx + 1) ++ "-" ++ toString (placeIdx + 1)
               else p.name
             placeId := some p.placeId }
    else none
  | none => none

/-- The inner `day.places.forEach((place, placeIdx) => ...)` loop of
waypoint extraction, keeping located places in within-day order. -/
def placesWaypoints (dayIdx : ℕ) : ℕ → List Place → List Waypoint
  | _, [] => []
  | i, p :: ps =>
    match placeWaypoint dayIdx i p with
    | some w => w :: placesWaypoints dayIdx (i + 1) ps
    | none => placesWaypoints dayIdx (i + 1) ps

/-- The outer `itinerary.dayPlans.forEach((day, dayIdx) => ...)` loop of
waypoint extraction. -/
def dayPlansWaypoints : ℕ → List DayPlan → List Waypoint
  | _, [] => []
  | i, d :: ds => placesWaypoints i 0 d.places ++ dayPlansWaypoints (i + 1) ds

/-- `waypointsFromDayPlans` of `calculateRoutes`: all located day-plan
places, traversed in stored day order (the data model keeps `dayPlans`
ordered by day number) then within-day order. -/
def waypointsFromDayPlans (dayPlans : List DayPlan) : List Waypoint :=
  dayPlansWaypoints 0 dayPlans

/-- Projection of a legacy `destinations` entry to a waypoint (the final
`.map` of the waypoint assembly). -/
def destWaypoint (d : Destination) : Waypoint :=
  { latitude := d.latitude, longitude := d.longitude, name := d.name, placeId := d.placeId }

/-- Projection of `startLocation` / `endLocation` to a waypoint. -/
def locWaypoint (l : NamedLocation) : Waypoint :=
  { latitude := l.latitude, longitude := l.longitude, name := l.name, placeId := l.placeId }

/-- The waypoint assembly of `calculateRoutes`: start location, then the
day-plan waypoints (or, when no day plan yields a located place, the legacy
destinations list), then the end location.  `none` models the crash on an
itinerary missing either terminal location. -/
def extractWaypoints (it : Itinerary) : Option (List Waypoint) :=
  match it.startLocation, it.endLocation with
  | some sl, some el =>
    let fromDayPlans := waypointsFromDayPlans it.dayPlans
    let intermediates :=
      if fromDayPlans ≠ [] then fromDayPlans
      else it.destinations.map destWaypoint
    some (locWaypoint sl :: intermediates ++ [locWaypoint el])
  | _, _ => none

/-- The located day-plan places, in stored day then within-day order (the
reference list the waypoint extraction must follow). -/
def locatedPlaces (dayPlans : List DayPlan) : List Place :=
  dayPlans.flatMap (fun d => d.places.filter hasValidCoords)

/-- An encoded polyline object of the directions provider. -/
structure GPolyline where
  points : String
deriving DecidableEq, Repr

/-- A provider coordinate `{lat, lng}`. -/
structure GLatLng where
  lat : ℚ
  lng : ℚ
deriving DecidableEq, Repr

/-- A provider `{text, value}` quantity; only `value` is read. -/
structure GValue where
  value : ℚ
deriving DecidableEq, Repr

/-- A step of a provider leg. -/
structure GStep where
  html_instructions : String
  distance : GValue
  duration : GValue
  start_location : GLatLng
  end_location : GLatLng
  polyline : GPolyline
deriving DecidableEq, Repr

/-- A leg of a provider route. -/
structure GLeg where
  start_address : String
  end_address : String
  start_location : GLatLng
  end_location : GLatLng
  distance : GValue
  duration : GValue
  steps : List GStep
deriving DecidableEq, Repr

/-- A provider bounding box. -/
structure GBounds where
  northeast : GLatLng
  southwest : GLatLng
deriving DecidableEq, Repr

/-- A provider route alternative. -/
structure GRoute where
  legs : List GLeg
  bounds : GBounds
  overview_polyline : GPolyline
  summary : String
deriving DecidableEq, Repr

/-- A directions provider response: status plus route alternatives. -/
structure GoogleResponse where
  status : String
  routes : List GRoute
deriving DecidableEq, Repr

/-- Scan for the next `>` and drop through it (helper of the
`<[^>]*>` tag removal). -/
def dropThroughGt : List Char → Option (List Char)
  | [] => none
  | c :: cs => if c = '>' then some cs else dropThroughGt cs

theorem dropThroughGt_length {cs rest : List Char}
    (h : dropThroughGt cs = some rest) : rest.length ≤ cs.length := by
  induction cs with
  | nil => simp [dropThroughGt] at h
  | cons c cs ih =>
    unfold dropThroughGt at h
    split_ifs at h with hc
    · injection h with h
      rw [← h]
      simp
    · have := ih h
      simp
      omega

/-- `replace(/<[^>]*>/g, '')` on a character list: a `<` with a matching
later `>` is removed together with everything between; a `<` with no later
`>` starts no match (and then no later match exists, since every match ends
at a `>`). -/
def stripTagsAux : List Char → List Char
  | [] => []
  | c :: cs =>
    if c = '<' then
      match h : dropThroughGt cs with
      | some rest => stripTagsAux rest
      | none => c :: cs
    else c :: stripTagsAux cs
termination_by l => l.length
decreasing_by
  · simp
    have := dropThroughGt_length h
    omega
  · simp

/-- The HTML-markup stripping applied to step instructions. -/
def stripTags (s : String) : String := String.mk (stripTagsAux s.data)

/-- A step of a stored route segment. -/
structure RouteStep where
  instruction : String
  distance : ℚ
  duration : ℚ
  startLocation : Coord
  endLocation : Coord
deriving DecidableEq, Repr

/-- A named endpoint of a stored route segment. -/
structure PointName where
  latitude : ℚ
  longitude : ℚ
  name : String
deriving DecidableEq, Repr

/-- A stored route segment (one provider leg). -/
structure RouteSegment where
  startPoint : PointName
  endPoint : PointName
  distance : ℚ
  duration : ℚ
  polyline : String
  steps : List RouteStep
deriving DecidableEq, Repr

/-- The stored route overview (bounds, overall polyline, summary). -/
structure Overview where
  bounds : GBounds
  polyline : String
  summary : String
deriving DecidableEq, Repr

/-- The reduction of one provider response route
(`parseDirectionsResponse`). -/
structure RouteData where
  totalDistance : ℚ
  totalDuration : ℚ
  segments : List RouteSegment
  overview : Overview
deriving DecidableEq, Repr

/-- The step reduction inside `parseDirectionsResponse`. -/
def toRouteStep (s : GStep) : RouteStep :=
  { instruction := stripTags s.html_instructions
    distance := s.distance.value
    duration := s.duration.value
    startLocation := ⟨s.start_location.lat, s.start_location.lng⟩
    endLocation := ⟨s.end_location.lat, s.end_location.lng⟩ }

/-- The per-leg segment reduction inside `parseDirectionsResponse`. -/
def toSegment (leg : GLeg) : RouteSegment :=
  { startPoint := ⟨leg.start_location.lat, leg.start_location.lng, leg.start_address⟩
    endPoint := ⟨leg.end_location.lat, leg.end_location.lng, leg.end_address⟩
    distance := leg.distance.value
    duration := leg.duration.value
    polyline := String.join (leg.steps.map (fun st => st.polyline.points))
    steps := leg.steps.map toRouteStep }

/-- `parseDirectionsResponse` (GoogleDirectionsService) applied to the first
route of the response: totals are the reduce-sums over legs, segments the
per-leg reduction, overview the bounds/overview polyline/summary. -/
def parseDirectionsResponse (route : GRoute) : RouteData :=
  { totalDistance := route.legs.foldl (fun sum leg => sum + leg.distance.value) 0
    totalDuration := route.legs.foldl (fun sum leg => sum + leg.duration.value) 0
    segments := route.legs.map toSegment
    overview := { bounds := route.bounds
                  polyline := route.overview_polyline.points
                  summary := route.summary } }

/-- `calculateRoute` (GoogleDirectionsService): rejects fewer than two
waypoints, errors on a non-`OK` provider status or an empty route list
(the JS code crashes on `routes[0]` and the crash is rethrown as an error),
otherwise parses the first route. -/
def calculateRoute (waypoints : List Waypoint) (resp : GoogleResponse) :
    Except String RouteData :=
  if waypoints.length < 2 then
    Except.error "At least 2 waypoints required (origin and destination)"
  else if resp.status ≠ "OK" then
    Except.error ("Failed to calculate route: Directions API error: " ++ resp.status)
  else
    match resp.routes with
    | [] => Except.error "Failed to calculate route: no route in response"
    | r :: _ => Except.ok (parseDirectionsResponse r)

/-- `calculateShortestScore`: `1000000 / (totalDistance + 1)`. -/
def calculateShortestScore (r : RouteData) : ℚ := 1000000 / (r.totalDistance + 1)

/-- `calculateRecommendedScore`: equal blend of distance and duration
terms. -/
def calculateRecommendedScore (r : RouteData) : ℚ :=
  500000 / (r.totalDistance + 1) * (1/2) + 500000 / (r.totalDuration + 1) * (1/2)

/-- `calculateScenicScore`: `min(totalDistance / 10000, 100)`. -/
def calculateScenicScore (r : RouteData) : ℚ := min (r.totalDistance / 10000) 100

/-- One route variant produced by `calculateAllRouteTypes`. -/
structure TypedRoute where
  rtype : RouteType
  data : RouteData
  score : ℚ
deriving DecidableEq, Repr

/-- The three variants produced by `calculateAllRouteTypes`. -/
structure AllRouteTypes where
  shortest : TypedRoute
  recommended : TypedRoute
  scenic : TypedRoute
deriving DecidableEq, Repr

/-- `calculateAllRouteTypes` (GoogleDirectionsService): one optimized call
(shortest), one order-preserving call (recommended), and a scenic variant
that reuses the recommended route's data with a scenic score; `provider b`
is the response of the directions call with waypoint optimization flag
`b`. -/
def calculateAllRouteTypes (waypoints : List Waypoint)
    (provider : Bool → GoogleResponse) : Except String AllRouteTypes :=
  match calculateRoute waypoints (provider true) with
  | Except.error e => Except.error e
  | Except.ok shortestRoute =>
    match calculateRoute waypoints (provider false) with
    | Except.error e => Except.error e
    | Except.ok recommendedRoute =>
      Except.ok
        { shortest := ⟨RouteType.shortest, shortestRoute,
            calculateShortestScore shortestRoute⟩
          recommended := ⟨RouteType.recommended, recommendedRoute,
            calculateRecommendedScore recommendedRoute⟩
          scenic := ⟨RouteType.scenic, recommendedRoute,
            calculateScenicScore recommendedRoute⟩ }

/-- A place returned by the places-provider nearby search (the fields read
by `findAttractionsAlongRoute`; `displayName` models `displayName?.text`). -/
structure GPlace where
  id : String
  displayName : Option String
  name : String
  location : Option GLatLng
  types : List String
  rating : Option ℚ
deriving DecidableEq, Repr

/-- The possibly-undefined coordinates
`{latitude: place.location?.latitude, longitude: place.location?.longitude}`
stored on an attraction. -/
structure AttractionLoc where
  latitude : Option ℚ
  longitude : Option ℚ
deriving DecidableEq, Repr

/-- An attraction record collected along a route. -/
structure Attraction where
  placeId : String
  name : String
  location : AttractionLoc
  types : List String
  rating : Option ℚ
  distanceFromRoute : ℚ
  detourTime : ℚ
deriving DecidableEq, Repr

/-- The attraction record pushed for one nearby place:
`displayName?.text || name`, a zero placeholder route distance and the
fixed 30-minute (1800 s) detour placeholder. -/
def toAttraction (p : GPlace) : Attraction :=
  { placeId := p.id
    name := match p.displayName with
      | some t => if t = "" then p.name else t
      | none => p.name
    location := ⟨p.location.map GLatLng.lat, p.location.map GLatLng.lng⟩
    types := p.types
    rating := p.rating
    distanceFromRoute := 0
    detourTime := 1800 }

/-- One `Map.set` of the JS `new Map(attractions.map(a => [a.placeId, a]))`
construction: an existing key keeps its position but its value is
overwritten; a new key is appended. -/
def mapUpsert (m : List Attraction) (a : Attraction) : List Attraction :=
  if m.any (fun b => b.placeId == a.placeId) then
    m.map (fun b => if b.placeId == a.placeId then a else b)
  else m ++ [a]

/-- `Array.from(new Map(attractions.map(a => [a.placeId, a])).values())`:
deduplication by place identifier with JS `Map` insertion semantics. -/
def jsMapDedup (l : List Attraction) : List Attraction := l.foldl mapUpsert []

/-- The sequential per-waypoint nearby-search loop of
`findAttractionsAlongRoute`: each waypoint contributes its first five
results; the first provider failure aborts the loop with that error. -/
def collectAttractions (pp : Waypoint → Except String (List GPlace)) :
    List Waypoint → Except String (List Attraction)
  | [] => Except.ok []
  | w :: ws =>
    match pp w with
    | Except.error e => Except.error e
    | Except.ok nearby =>
      match collectAttractions pp ws with
      | Except.error e => Except.error e
      | Except.ok rest => Except.ok ((nearby.take 5).map toAttraction ++ rest)

/-- `findAttractionsAlongRoute` (route.controller.js): collect the top five
nearby places per waypoint, deduplicate by place identifier; the
surrounding try/catch maps any provider error of the whole loop to an empty
list.  `pp w` is the nearby-search response around waypoint `w` (5 km
radius, fixed type set). -/
def findAttractionsAlongRoute (pp : Waypoint → Except String (List GPlace))
    (_segments : List RouteSegment) (waypoints : List Waypoint) : List Attraction :=
  match collectAttractions pp waypoints with
  | Except.ok attrs => jsMapDedup attrs
  | Except.error _ => []

/-- A stored waypoint of a persisted route (`{location, name, order}`). -/
structure StoredWaypoint where
  location : Coord
  name : String
  order : ℕ
deriving DecidableEq, Repr

/-- The indexed projection `waypoints.map((wp, idx) => ({location, name,
order: idx}))` of `calculateRoutes`. -/
def storedWaypoints : ℕ → List Waypoint → List StoredWaypoint
  | _, [] => []
  | i, w :: ws => ⟨⟨w.latitude, w.longitude⟩, w.name, i⟩ :: storedWaypoints (i + 1) ws

/-- A persisted Route document (the fields written by `calculateRoutes`). -/
structure PersistedRoute where
  itineraryId : String
  routeType : RouteType
  totalDistance : ℚ
  totalDuration : ℚ
  waypoints : List StoredWaypoint
  segments : List RouteSegment
  overview : Overview
  attractionsAlongRoute : List Attraction
  estimatedCosts : Costs
  score : ℚ
deriving DecidableEq, Repr

/-- The `calculateScore` method of the Route model: per-type scoring from
the persisted fields (the scenic average rating divides by
`attractionCount || 1`). -/
def routeScore (r : PersistedRoute) : ℚ :=
  match r.routeType with
  | RouteType.shortest => 1000000 / (r.totalDistance + 1)
  | RouteType.recommended =>
      500000 / (r.totalDistance + 1) * (3/10) +
        500000 / (r.totalDuration + 1) * (3/10) +
        ((r.attractionsAlongRoute.length : ℚ) * 100) * (4/10)
  | RouteType.scenic =>
      (r.attractionsAlongRoute.length : ℚ) * 200 +
        (r.attractionsAlongRoute.foldl (fun sum a => sum + a.rating.getD 0) 0) /
          (if r.attractionsAlongRoute.length = 0 then 1
            else (r.attractionsAlongRoute.length : ℚ)) * 100

/-- `route.calculateScore()` before saving: sets the score field. -/
def setScore (r : PersistedRoute) : PersistedRoute := { r with score := routeScore r }

/-- The Route document built and saved for one route type in the
`calculateRoutes` save loop (attractions only for scenic; costs from the
itinerary's transportation preference; score set before saving). -/
def mkPersistedRoute (it : Itinerary) (pp : Waypoint → Except String (List GPlace))
    (waypoints : List Waypoint) (t : RouteType) (data : RouteData) : PersistedRoute :=
  setScore
    { itineraryId := it.id
      routeType := t
      totalDistance := data.totalDistance
      totalDuration := data.totalDuration
      waypoints := storedWaypoints 0 waypoints
      segments := data.segments
      overview := data.overview
      attractionsAlongRoute :=
        if t = RouteType.scenic then findAttractionsAlongRoute pp data.segments waypoints
        else []
      estimatedCosts := estimateRouteCosts data.totalDistance it.preferences
      score := 0 }

/-- The observable outcome of one `calculateRoutes` request: the HTTP-level
result, the Route collection afterwards, and the itinerary afterwards. -/
structure CalcOutcome where
  response : Except String (List PersistedRoute)
  db : List PersistedRoute
  itinerary : Itinerary
deriving Repr

/-- `calculateRoutes` (route.controller.js) as a transformer of the
persisted Route set `db`: waypoint extraction, the two provider calls, then
delete-all-for-itinerary followed by inserting the three new routes
(shortest, recommended, scenic — the object insertion order) and setting the
itinerary's selected route to recommended.  Any error before the delete
leaves `db` unchanged. -/
def calculateRoutesController (it : Itinerary) (provider : Bool → GoogleResponse)
    (pp : Waypoint → Except String (List GPlace)) (db : List PersistedRoute) :
    CalcOutcome :=
  match extractWaypoints it with
  | none => ⟨Except.error "Cannot read properties of undefined", db, it⟩
  | some waypoints =>
    match calculateAllRouteTypes waypoints provider with
    | Except.error e => ⟨Except.error e, db, it⟩
    | Except.ok routeData =>
      let remaining := db.filter (fun r => r.itineraryId ≠ it.id)
      let newRoutes :=
        [mkPersistedRoute it pp waypoints RouteType.shortest routeData.shortest.data,
         mkPersistedRoute it pp waypoints RouteType.recommended routeData.recommended.data,
         mkPersistedRoute it pp waypoints RouteType.scenic routeData.scenic.data]
      ⟨Except.ok newRoutes, remaining ++ newRoutes,
        { it with selectedRoute := some RouteType.recommended }⟩

end ItineraryService

namespace ItineraryService

theorem ratFloor_eq_intFloor (q : ℚ) : Rat.floor q = ⌊q⌋ := rfl

theorem jsFloor_eq_intFloor (q : ℚ) : jsFloor q = ⌊q⌋ := rfl

theorem jsCeil_eq_intCeil (q : ℚ) : jsCeil q = ⌈q⌉ := by
  unfold jsCeil
  rw [ratFloor_eq_intFloor, Int.floor_neg, neg_neg]

theorem jsRound_add_int (q : ℚ) (z : ℤ) : jsRound (q + (z : ℚ)) = jsRound q + z := by
  unfold jsRound
  rw [ratFloor_eq_intFloor, ratFloor_eq_intFloor, add_right_comm, Int.floor_add_int]

theorem jsFloor_eq_iff {q : ℚ} {z : ℤ} : jsFloor q = z ↔ (z : ℚ) ≤ q ∧ q < z + 1 := by
  rw [jsFloor_eq_intFloor, Int.floor_eq_iff]

theorem jsRound_eq_iff {q : ℚ} {z : ℤ} :
    jsRound q = z ↔ (z : ℚ) ≤ q + 1/2 ∧ q + 1/2 < z + 1 := by
  unfold jsRound
  rw [ratFloor_eq_intFloor, Int.floor_eq_iff]

theorem jsCeil_eq_iff {q : ℚ} {z : ℤ} : jsCeil q = z ↔ (z : ℚ) - 1 < q ∧ q ≤ z := by
  rw [jsCeil_eq_intCeil, Int.ceil_eq_iff]

theorem costPerKm_const (t : Transportation) : costPerKm t = 300 := by
  cases t <;> rfl

theorem jsRound_mono {q q' : ℚ} (h : q ≤ q') : jsRound q ≤ jsRound q' := by
  unfold jsRound
  rw [ratFloor_eq_intFloor, ratFloor_eq_intFloor]
  exact Int.floor_le_floor (by linarith)

theorem indicator_mono {P Q : Prop} [Decidable P] [Decidable Q] (h : P → Q) :
    (if P then (1 : ℕ) else 0) ≤ (if Q then 1 else 0) := by
  by_cases hP : P
  · simp [hP, h hP]
  · simp [hP]

theorem completedSteps_le_seven (it : Itinerary) : completedSteps it ≤ 7 := by
  unfold completedSteps
  split_ifs <;> omega

/-- C2: `calculateCompletionPercentage` returns `round(completedUnits/7 × 100)`
for the 7-unit checklist (name, start date, end date, both locations, a day
plan, a day plan with a place, a selected route); the result lies in
`[0, 100]`, is non-decreasing when more units become true (pointwise
implication of units between two itineraries), and 3 true units yield
exactly 43. -/
theorem claim_C2_completionPercentage (it it2 : Itinerary)
    (h1 : it.tripName ≠ "" → it2.tripName ≠ "")
    (h2 : it.startDate.isSome → it2.startDate.isSome)
    (h3 : it.endDate.isSome → it2.endDate.isSome)
    (h4 : it.startLocation.isSome ∧ it.endLocation.isSome →
      it2.startLocation.isSome ∧ it2.endLocation.isSome)
    (h5 : it.dayPlans ≠ [] → it2.dayPlans ≠ [])
    (h6 : it.dayPlans.any (fun day => !day.places.isEmpty) = true →
      it2.dayPlans.any (fun day => !day.places.isEmpty) = true)
    (h7 : it.selectedRoute.isSome → it2.selectedRoute.isSome) :
    calculateCompletionPercentage it = jsRound ((completedSteps it : ℚ) / 7 * 100) ∧
    0 ≤ calculateCompletionPercentage it ∧
    calculateCompletionPercentage it ≤ 100 ∧
    calculateCompletionPercentage it ≤ calculateCompletionPercentage it2 ∧
    (completedSteps it = 3 → calculateCompletionPercentage it = 43) := by
  have hfloor : ∀ j : Itinerary,
      calculateCompletionPercentage j = ⌊(completedSteps j : ℚ) / 7 * 100 + 1/2⌋ := by
    intro j
    rfl
  refine ⟨rfl, ?_, ?_, ?_, ?_⟩
  · rw [hfloor]
    refine Int.le_floor.mpr ?_
    push_cast
    positivity
  · rw [hfloor]
    have hc : completedSteps it ≤ 7 := completedSteps_le_seven it
    have hcq : (completedSteps it : ℚ) ≤ 7 := by exact_mod_cast hc
    have : ⌊(completedSteps it : ℚ) / 7 * 100 + 1/2⌋ < 101 :=
      Int.floor_lt.mpr (by push_cast; linarith)
    omega
  · have hsteps : completedSteps it ≤ completedSteps it2 := by
      unfold completedSteps
      exact add_le_add (add_le_add (add_le_add (add_le_add (add_le_add
        (add_le_add (indicator_mono h1) (indicator_mono h2)) (indicator_mono h3))
        (indicator_mono h4)) (indicator_mono h5)) (indicator_mono h6))
        (indicator_mono h7)
    apply jsRound_mono
    have : (completedSteps it : ℚ) ≤ (completedSteps it2 : ℚ) := by exact_mod_cast hsteps
    linarith
  · intro h3eq
    unfold calculateCompletionPercentage
    rw [h3eq, jsRound_eq_iff]
    norm_num

/-- C2 witness: an itinerary with exactly 3 completed units (trip name and
both dates) scores 43, lies in `[0, 100]`, and the monotonicity hypothesis
holds reflexively. -/
theorem claim_C2_completionPercentage_witness :
    completedSteps
      { id := "i1", userId := "u1", tripName := "Trip", startDate := some 0,
        endDate := some 86400000, startLocation := none, endLocation := none,
        destinations := [], preferences := none, dayPlans := [],
        selectedRoute := none, status := Status.draft, createdAt := 0,
        updatedAt := 0 } = 3 ∧
    calculateCompletionPercentage
      { id := "i1", userId := "u1", tripName := "Trip", startDate := some 0,
        endDate := some 86400000, startLocation := none, endLocation := none,
        destinations := [], preferences := none, dayPlans := [],
        selectedRoute := none, status := Status.draft, createdAt := 0,
        updatedAt := 0 } = 43 := by
  have h := claim_C2_completionPercentage
    { id := "i1", userId := "u1", tripName := "Trip", startDate := some 0,
      endDate := some 86400000, startLocation := none, endLocation := none,
      destinations := [], preferences := none, dayPlans := [],
      selectedRoute := none, status := Status.draft, createdAt := 0,
      updatedAt := 0 }
    { id := "i1", userId := "u1", tripName := "Trip", startDate := some 0,
      endDate := some 86400000, startLocation := none, endLocation := none,
      destinations := [], preferences := none, dayPlans := [],
      selectedRoute := none, status := Status.draft, createdAt := 0,
      updatedAt := 0 }
    (fun a => a) (fun a => a) (fun a => a) (fun a => a) (fun a => a)
    (fun a => a) (fun a => a)
  exact ⟨by decide, h.2.2.2.2 (by decide)⟩

/-- C7, counterexample: at a total distance of 5 meters the returned `fuel`
component is `round(1.5) = 2`, not the exact product `distanceKm × rate = 1.5`,
so `estimateRouteCosts` does not return `fuel = distanceKm × ratePerKm[mode]`
as stated. -/
theorem claim_C7_counterexample :
    ((estimateRouteCosts 5 none).fuel : ℚ) ≠ 5 / 1000 * costPerKm (transportOf none) := by
  have hfuel : (estimateRouteCosts 5 none).fuel = 2 := by
    show jsRound (5 / 1000 * costPerKm (transportOf none)) = 2
    rw [jsRound_eq_iff]
    norm_num [transportOf, costPerKm]
  rw [hfuel]
  norm_num [transportOf, costPerKm]

/-- C7 as amended: for every non-negative distance and every transport-mode
preference, the returned `fuel` is `round(distanceKm × ratePerKm[mode])`
(rounded to the nearest integer, which is the only change the counterexample
forces), `tolls = floor(distanceKm / 100) × 500`, `parking = 200`, and the
returned `total` is exactly the sum of the three returned components, with no
rounding divergence between the component sum and the total. -/
theorem claim_C7_estimateRouteCosts_breakdown (d : ℚ) (hd : 0 ≤ d) (p : Option Preferences) :
    (estimateRouteCosts d p).fuel = jsRound (d / 1000 * costPerKm (transportOf p)) ∧
    (estimateRouteCosts d p).tolls = jsFloor (d / 1000 / 100) * 500 ∧
    (estimateRouteCosts d p).parking = 200 ∧
    (estimateRouteCosts d p).total =
      (estimateRouteCosts d p).fuel + (estimateRouteCosts d p).tolls +
        (estimateRouteCosts d p).parking := by
  refine ⟨rfl, rfl, rfl, ?_⟩
  show jsRound (d / 1000 * costPerKm (transportOf p) +
      ((jsFloor (d / 1000 / 100) * 500 : ℤ) : ℚ) + ((200 : ℤ) : ℚ)) = _
  have hcast : (((jsFloor (d / 1000 / 100) * 500 : ℤ) : ℚ) + ((200 : ℤ) : ℚ)) =
      (((jsFloor (d / 1000 / 100) * 500 + 200 : ℤ) : ℚ)) := by push_cast; ring
  rw [add_assoc, hcast, jsRound_add_int]
  show _ = jsRound (d / 1000 * costPerKm (transportOf p)) + jsFloor (d / 1000 / 100) * 500 + 200
  ring

/-- C7 witness: the 120 km scenario, with one full 100 km toll bracket. -/
theorem claim_C7_estimateRouteCosts_breakdown_witness :
    (0 : ℚ) ≤ 120000 ∧
    ((estimateRouteCosts 120000 none).fuel = jsRound (120000 / 1000 * costPerKm (transportOf none)) ∧
    (estimateRouteCosts 120000 none).tolls = jsFloor (120000 / 1000 / 100) * 500 ∧
    (estimateRouteCosts 120000 none).parking = 200 ∧
    (estimateRouteCosts 120000 none).total =
      (estimateRouteCosts 120000 none).fuel + (estimateRouteCosts 120000 none).tolls +
        (estimateRouteCosts 120000 none).parking) :=
  ⟨by norm_num, claim_C7_estimateRouteCosts_breakdown 120000 (by norm_num) none⟩

/-- C10: the cost estimate is independent of the transport-mode preference,
because every entry of the per-km rate table is the constant 300; every
preference value (including an absent one, which defaults to `mixed`)
produces the identical breakdown. -/
theorem claim_C10_estimateRouteCosts_mode_independent (d : ℚ) (p : Option Preferences) :
    estimateRouteCosts d p = estimateRouteCosts d none := by
  unfold estimateRouteCosts
  simp only [costPerKm_const]

theorem classifyStep_decomp (now : ℤ) (rm : String → Bool) (b : Buckets) (it : Itinerary) :
    classifyStep now rm b it =
      ⟨b.savedPlans ++ savedPush now rm it,
       b.unfinishedTrips ++ unfinishedPush now rm it,
       b.upcomingTrips ++ upcomingPush now rm it⟩ := by
  unfold classifyStep savedPush unfinishedPush upcomingPush
  split_ifs <;> simp_all

theorem foldl_classifyStep (now : ℤ) (rm : String → Bool) :
    ∀ (its : List Itinerary) (b : Buckets),
      its.foldl (classifyStep now rm) b =
        ⟨b.savedPlans ++ its.flatMap (savedPush now rm),
         b.unfinishedTrips ++ its.flatMap (unfinishedPush now rm),
         b.upcomingTrips ++ its.flatMap (upcomingPush now rm)⟩ := by
  intro its
  induction its with
  | nil => intro b; simp
  | cons it rest ih =>
    intro b
    rw [List.foldl_cons, ih, classifyStep_decomp]
    simp [List.append_assoc]

theorem mem_categorize_saved (now : ℤ) (rm : String → Bool) (its : List Itinerary)
    (td : TripData) :
    td ∈ (categorizeTrips now rm its).savedPlans ↔
      ∃ it ∈ its, td ∈ savedPush now rm it := by
  unfold categorizeTrips
  rw [foldl_classifyStep]
  simp [List.mem_flatMap]

theorem mem_categorize_unfinished (now : ℤ) (rm : String → Bool) (its : List Itinerary)
    (td : TripData) :
    td ∈ (categorizeTrips now rm its).unfinishedTrips ↔
      ∃ it ∈ its, td ∈ unfinishedPush now rm it := by
  unfold categorizeTrips
  rw [foldl_classifyStep]
  simp [List.mem_flatMap]

theorem mem_categorize_upcoming (now : ℤ) (rm : String → Bool) (its : List Itinerary)
    (td : TripData) :
    td ∈ (categorizeTrips now rm its).upcomingTrips ↔
      ∃ it ∈ its, td ∈ upcomingPush now rm it := by
  unfold categorizeTrips
  rw [foldl_classifyStep]
  simp [List.mem_flatMap]

theorem mem_ite_singleton {α : Type} {c : Prop} [Decidable c] {x td : α} :
    td ∈ (if c then [x] else []) ↔ c ∧ td = x := by
  split <;> simp_all

theorem isUpcoming_false_of_isActive {now : ℤ} {it : Itinerary}
    (h : isActiveAt now it = true) : isUpcomingAt now it = false := by
  unfold isActiveAt at h
  unfold isUpcomingAt
  cases hs : it.startDate with
  | none => rfl
  | some s =>
    cases he : it.endDate with
    | none => rw [hs, he] at h; simp at h
    | some e =>
      rw [hs, he] at h
      simp at h
      simp
      omega

theorem mem_upcomingPush {now : ℤ} {rm : String → Bool} {it : Itinerary} {td : TripData} :
    td ∈ upcomingPush now rm it ↔
      ((isUpcomingAt now it ∧ (it.status = Status.planned ∨ it.status = Status.active)) ∧
        td = mkTripData now rm it) ∨
      (¬(isUpcomingAt now it ∧ (it.status = Status.planned ∨ it.status = Status.active)) ∧
        (isActiveAt now it ∧ it.status = Status.active) ∧
        td = mkActiveTripData now rm it) := by
  unfold upcomingPush
  split_ifs <;> simp_all

/-- C1: the trip classifier places an itinerary of the input list in
`unfinished` iff status = draft and completion < 100; in `saved` iff
(status = planned, or draft with completion = 100) and (`isUpcoming`, or
none of upcoming/active/completed hold); and in `upcoming` iff (`isUpcoming`
and status planned-or-active) or (`isActive` and status active), the latter
case carrying `isCurrentlyActive` and
`daysRemaining = ceil((endDate − now) / day)`. -/
theorem claim_C1_tripClassification (now : ℤ) (rm : String → Bool)
    (its : List Itinerary) (it : Itinerary) (hmem : it ∈ its) :
    ((∃ td ∈ (categorizeTrips now rm its).unfinishedTrips, td.itinerary = it) ↔
      (it.status = Status.draft ∧ calculateCompletionPercentage it < 100)) ∧
    ((∃ td ∈ (categorizeTrips now rm its).savedPlans, td.itinerary = it) ↔
      ((it.status = Status.planned ∨
          (it.status = Status.draft ∧ calculateCompletionPercentage it = 100)) ∧
        (isUpcomingAt now it ∨
          (¬isUpcomingAt now it ∧ ¬isActiveAt now it ∧ ¬isCompletedAt now it)))) ∧
    ((∃ td ∈ (categorizeTrips now rm its).upcomingTrips, td.itinerary = it) ↔
      ((isUpcomingAt now it ∧ (it.status = Status.planned ∨ it.status = Status.active)) ∨
        (isActiveAt now it ∧ it.status = Status.active))) ∧
    (∀ e : ℤ, it.endDate = some e → isActiveAt now it = true → it.status = Status.active →
      ∃ td ∈ (categorizeTrips now rm its).upcomingTrips,
        td.itinerary = it ∧ td.isCurrentlyActive = true ∧
        td.daysRemaining = some (daysRemainingAt now e)) := by
  refine ⟨?_, ?_, ?_, ?_⟩
  · constructor
    · rintro ⟨td, htd, hti⟩
      rw [mem_categorize_unfinished] at htd
      obtain ⟨it', hit', hpush⟩ := htd
      rw [unfinishedPush, mem_ite_singleton] at hpush
      obtain ⟨hcond, rfl⟩ := hpush
      have : it' = it := hti
      rwa [this] at hcond
    · intro hcond
      refine ⟨mkTripData now rm it, ?_, rfl⟩
      rw [mem_categorize_unfinished]
      exact ⟨it, hmem, by rw [unfinishedPush, mem_ite_singleton]; exact ⟨hcond, rfl⟩⟩
  · constructor
    · rintro ⟨td, htd, hti⟩
      rw [mem_categorize_saved] at htd
      obtain ⟨it', hit', hpush⟩ := htd
      rw [savedPush, mem_ite_singleton] at hpush
      obtain ⟨hcond, rfl⟩ := hpush
      have : it' = it := hti
      rwa [this] at hcond
    · intro hcond
      refine ⟨mkTripData now rm it, ?_, rfl⟩
      rw [mem_categorize_saved]
      exact ⟨it, hmem, by rw [savedPush, mem_ite_singleton]; exact ⟨hcond, rfl⟩⟩
  · constructor
    · rintro ⟨td, htd, hti⟩
      rw [mem_categorize_upcoming] at htd
      obtain ⟨it', hit', hpush⟩ := htd
      rw [mem_upcomingPush] at hpush
      rcases hpush with ⟨hcond, rfl⟩ | ⟨_, hcond, rfl⟩
      · have : it' = it := hti
        rw [this] at hcond
        exact Or.inl hcond
      · have : it' = it := hti
        rw [this] at hcond
        exact Or.inr hcond
    · rintro (hcond | hcond)
      · refine ⟨mkTripData now rm it, ?_, rfl⟩
        rw [mem_categorize_upcoming]
        exact ⟨it, hmem, by rw [mem_upcomingPush]; exact Or.inl ⟨hcond, rfl⟩⟩
      · refine ⟨mkActiveTripData now rm it, ?_, rfl⟩
        rw [mem_categorize_upcoming]
        refine ⟨it, hmem, ?_⟩
        rw [mem_upcomingPush]
        refine Or.inr ⟨?_, hcond, rfl⟩
        have hfalse := isUpcoming_false_of_isActive hcond.1
        simp [hfalse]
  · intro e he hact hstat
    refine ⟨mkActiveTripData now rm it, ?_, rfl, rfl, ?_⟩
    · rw [mem_categorize_upcoming]
      refine ⟨it, hmem, ?_⟩
      rw [mem_upcomingPush]
      refine Or.inr ⟨?_, ⟨hact, hstat⟩, rfl⟩
      have hfalse := isUpcoming_false_of_isActive hact
      simp [hfalse]
    · simp [mkActiveTripData, he]

theorem placesWaypoints_coords (dayIdx : ℕ) (ps : List Place) : ∀ i : ℕ,
    (placesWaypoints dayIdx i ps).map
        (fun w => some (⟨w.latitude, w.longitude⟩ : Coord)) =
      (ps.filter hasValidCoords).map Place.location ∧
    (placesWaypoints dayIdx i ps).map Waypoint.placeId =
      (ps.filter hasValidCoords).map (fun p => some p.placeId) := by
  induction ps with
  | nil => intro i; exact ⟨rfl, rfl⟩
  | cons p ps ih =>
    intro i
    cases hloc : p.location with
    | none =>
      have hval : hasValidCoords p = false := by simp [hasValidCoords, hloc]
      simp only [placesWaypoints, placeWaypoint, hloc, List.filter_cons, hval]
      exact ih (i + 1)
    | some loc =>
      by_cases h : loc.latitude ≠ 0 ∧ loc.longitude ≠ 0
      · have hval : hasValidCoords p = true := by
          simp [hasValidCoords, hloc, h.1, h.2]
        simp only [placesWaypoints, placeWaypoint, hloc, if_pos h, List.filter_cons, hval,
          if_pos, List.map_cons]
        exact ⟨by rw [(ih (i + 1)).1], by rw [(ih (i + 1)).2]⟩
      · have hval : hasValidCoords p = false := by
          simp only [hasValidCoords, hloc]
          rcases not_and_or.mp h with h1 | h1 <;> simp_all
        simp only [placesWaypoints, placeWaypoint, hloc, if_neg h, List.filter_cons, hval]
        exact ih (i + 1)

theorem dayPlansWaypoints_coords (ds : List DayPlan) : ∀ i : ℕ,
    (dayPlansWaypoints i ds).map
        (fun w => some (⟨w.latitude, w.longitude⟩ : Coord)) =
      (locatedPlaces ds).map Place.location ∧
    (dayPlansWaypoints i ds).map Waypoint.placeId =
      (locatedPlaces ds).map (fun p => some p.placeId) := by
  induction ds with
  | nil => intro i; exact ⟨rfl, rfl⟩
  | cons d ds ih =>
    intro i
    simp only [dayPlansWaypoints, locatedPlaces, List.flatMap_cons, List.map_append]
    constructor
    · rw [(placesWaypoints_coords i d.places 0).1, (ih (i + 1)).1]
      rfl
    · rw [(placesWaypoints_coords i d.places 0).2, (ih (i + 1)).2]
      rfl

theorem waypointsFromDayPlans_nil_of_located_nil {ds : List DayPlan}
    (h : locatedPlaces ds = []) : waypointsFromDayPlans ds = [] := by
  have hmap := (dayPlansWaypoints_coords ds 0).1
  rw [h] at hmap
  exact List.map_eq_nil_iff.mp hmap

/-- C3: the waypoint list assembled for route computation is
`[startLocation, ...intermediates, endLocation]`, where the intermediates
are the day-plan places with valid coordinates in day then within-day order
(their coordinates and place identifiers are exactly those of the located
places, in order); when no day plan contains a located place the
intermediates are exactly the legacy destinations list in stored order; and
when both sources are empty the list is exactly `[start, end]`. -/
theorem claim_C3_waypointExtraction (it : Itinerary) (sl el : NamedLocation)
    (hs : it.startLocation = some sl) (he : it.endLocation = some el) :
    (extractWaypoints it = some (locWaypoint sl ::
      (if waypointsFromDayPlans it.dayPlans ≠ [] then waypointsFromDayPlans it.dayPlans
        else it.destinations.map destWaypoint) ++ [locWaypoint el])) ∧
    ((waypointsFromDayPlans it.dayPlans).map
        (fun w => some (⟨w.latitude, w.longitude⟩ : Coord)) =
      (locatedPlaces it.dayPlans).map Place.location) ∧
    ((waypointsFromDayPlans it.dayPlans).map Waypoint.placeId =
      (locatedPlaces it.dayPlans).map (fun p => some p.placeId)) ∧
    (locatedPlaces it.dayPlans = [] →
      extractWaypoints it =
        some (locWaypoint sl :: it.destinations.map destWaypoint ++ [locWaypoint el])) ∧
    (locatedPlaces it.dayPlans = [] → it.destinations = [] →
      extractWaypoints it = some [locWaypoint sl, locWaypoint el]) := by
  refine ⟨?_, (dayPlansWaypoints_coords it.dayPlans 0).1,
    (dayPlansWaypoints_coords it.dayPlans 0).2, ?_, ?_⟩
  · simp [extractWaypoints, hs, he]
  · intro hloc
    have hnil := waypointsFromDayPlans_nil_of_located_nil hloc
    simp [extractWaypoints, hs, he, hnil]
  · intro hloc hdest
    have hnil := waypointsFromDayPlans_nil_of_located_nil hloc
    simp [extractWaypoints, hs, he, hnil, hdest]

/-- C3 witness: an itinerary whose single day plan has only an unlocated
place (zero latitude) falls back to the legacy destinations list, in stored
order, between start and end. -/
theorem claim_C3_waypointExtraction_witness :
    (let sl : NamedLocation := { name := "S", placeId := none, latitude := 1, longitude := 2 };
    let el : NamedLocation := { name := "E", placeId := none, latitude := 3, longitude := 4 };
    let d1 : Destination := { placeId := none, name := "D1", latitude := 5, longitude := 6 };
    let d2 : Destination := { placeId := none, name := "D2", latitude := 7, longitude := 8 };
    let pl : Place :=
      { placeId := "p", name := "P",
        location := some { latitude := 0, longitude := 9 }, types := [], rating := none };
    let dp : DayPlan := { dayNumber := 1, places := [pl] };
    let it : Itinerary :=
      { id := "i3", userId := "u1", tripName := "T", startDate := none, endDate := none,
        startLocation := some sl, endLocation := some el,
        destinations := [d1, d2], preferences := none,
        dayPlans := [dp],
        selectedRoute := none, status := Status.draft, createdAt := 0, updatedAt := 0 };
    it.startLocation = some sl ∧ it.endLocation = some el ∧
      extractWaypoints it =
        some (locWaypoint sl :: [d1, d2].map destWaypoint ++ [locWaypoint el])) := by
  refine ⟨rfl, rfl, ?_⟩
  exact (claim_C3_waypointExtraction _ _ _ rfl rfl).2.2.2.1 (by decide)

theorem calculateRoute_error_of_bad (wps : List Waypoint) (resp : GoogleResponse)
    (h : resp.status ≠ "OK" ∨ resp.routes = []) :
    ∃ e, calculateRoute wps resp = Except.error e := by
  unfold calculateRoute
  split_ifs with h1 h2
  · exact ⟨_, rfl⟩
  · exact ⟨_, rfl⟩
  · rcases h with hbad | hnil
    · exact absurd hbad h2
    · rw [hnil]
      exact ⟨_, rfl⟩

theorem calculateAllRouteTypes_error (wps : List Waypoint)
    (provider : Bool → GoogleResponse)
    (h : (provider true).status ≠ "OK" ∨ (provider true).routes = [] ∨
      (provider false).status ≠ "OK" ∨ (provider false).routes = []) :
    ∃ e, calculateAllRouteTypes wps provider = Except.error e := by
  unfold calculateAllRouteTypes
  cases hc1 : calculateRoute wps (provider true) with
  | error e => exact ⟨e, rfl⟩
  | ok r1 =>
    cases hc2 : calculateRoute wps (provider false) with
    | error e => exact ⟨e, rfl⟩
    | ok r2 =>
      exfalso
      rcases h with h | h | h | h
      · obtain ⟨e, he⟩ := calculateRoute_error_of_bad wps (provider true) (Or.inl h)
        rw [he] at hc1
        cases hc1
      · obtain ⟨e, he⟩ := calculateRoute_error_of_bad wps (provider true) (Or.inr h)
        rw [he] at hc1
        cases hc1
      · obtain ⟨e, he⟩ := calculateRoute_error_of_bad wps (provider false) (Or.inl h)
        rw [he] at hc2
        cases hc2
      · obtain ⟨e, he⟩ := calculateRoute_error_of_bad wps (provider false) (Or.inr h)
        rw [he] at hc2
        cases hc2

theorem calculateRoutesController_err (it : Itinerary)
    (provider : Bool → GoogleResponse) (pp : Waypoint → Except String (List GPlace))
    (db : List PersistedRoute) (wps : List Waypoint) (e : String)
    (hw : extractWaypoints it = some wps)
    (he : calculateAllRouteTypes wps provider = Except.error e) :
    calculateRoutesController it provider pp db = ⟨Except.error e, db, it⟩ := by
  unfold calculateRoutesController
  rw [hw]
  simp [he]

theorem calculateRoutesController_ok (it : Itinerary)
    (provider : Bool → GoogleResponse) (pp : Waypoint → Except String (List GPlace))
    (db : List PersistedRoute) (wps : List Waypoint) (art : AllRouteTypes)
    (hw : extractWaypoints it = some wps)
    (ha : calculateAllRouteTypes wps provider = Except.ok art) :
    calculateRoutesController it provider pp db =
      ⟨Except.ok [mkPersistedRoute it pp wps RouteType.shortest art.shortest.data,
          mkPersistedRoute it pp wps RouteType.recommended art.recommended.data,
          mkPersistedRoute it pp wps RouteType.scenic art.scenic.data],
        db.filter (fun r => r.itineraryId ≠ it.id) ++
          [mkPersistedRoute it pp wps RouteType.shortest art.shortest.data,
           mkPersistedRoute it pp wps RouteType.recommended art.recommended.data,
           mkPersistedRoute it pp wps RouteType.scenic art.scenic.data],
        { it with selectedRoute := some RouteType.recommended }⟩ := by
  unfold calculateRoutesController
  rw [hw]
  simp [ha]

/-- C4: when the routing provider reports a non-success status or returns
zero paths (on either of the two calls), the whole computation aborts with
an error and the persisted Route set is left exactly as it was: nothing is
deleted and nothing is inserted. -/
theorem claim_C4_providerFailure_preservesRoutes (it : Itinerary)
    (provider : Bool → GoogleResponse) (pp : Waypoint → Except String (List GPlace))
    (db : List PersistedRoute)
    (h : (provider true).status ≠ "OK" ∨ (provider true).routes = [] ∨
      (provider false).status ≠ "OK" ∨ (provider false).routes = []) :
    (∃ e, (calculateRoutesController it provider pp db).response = Except.error e) ∧
    (calculateRoutesController it provider pp db).db = db := by
  cases hw : extractWaypoints it with
  | none =>
    constructor
    · refine ⟨"Cannot read properties of undefined", ?_⟩
      unfold calculateRoutesController
      rw [hw]
    · show (calculateRoutesController it provider pp db).db = db
      unfold calculateRoutesController
      rw [hw]
  | some wps =>
    obtain ⟨e, he⟩ := calculateAllRouteTypes_error wps provider h
    rw [calculateRoutesController_err it provider pp db wps e hw he]
    exact ⟨⟨e, rfl⟩, rfl⟩

/-- C4 witness: a `ZERO_RESULTS` provider response aborts the computation
and leaves the one pre-existing persisted route untouched. -/
theorem claim_C4_providerFailure_preservesRoutes_witness :
    (let it : Itinerary :=
      { id := "i4", userId := "u1", tripName := "T", startDate := none, endDate := none,
        startLocation := some { name := "S", placeId := none, latitude := 1, longitude := 2 },
        endLocation := some { name := "E", placeId := none, latitude := 3, longitude := 4 },
        destinations := [], preferences := none, dayPlans := [],
        selectedRoute := none, status := Status.draft, createdAt := 0, updatedAt := 0 };
    let provider : Bool → GoogleResponse := fun _ => { status := "ZERO_RESULTS", routes := [] };
    let pp : Waypoint → Except String (List GPlace) := fun _ => Except.ok [];
    let oldRoute : PersistedRoute :=
      { itineraryId := "other", routeType := RouteType.recommended,
        totalDistance := 5, totalDuration := 6, waypoints := [], segments := [],
        overview := { bounds := ⟨⟨0, 0⟩, ⟨0, 0⟩⟩, polyline := "", summary := "" },
        attractionsAlongRoute := [],
        estimatedCosts := { fuel := 0, tolls := 0, parking := 0, total := 0 }, score := 0 };
    ((provider true).status ≠ "OK") ∧
      (∃ e, (calculateRoutesController it provider pp [oldRoute]).response = Except.error e) ∧
      (calculateRoutesController it provider pp [oldRoute]).db = [oldRoute]) := by
  refine ⟨by decide, ?_⟩
  exact claim_C4_providerFailure_preservesRoutes _ _ _ _ (Or.inl (by decide))

theorem foldl_add_eq_sum {α : Type} (f : α → ℚ) (l : List α) :
    ∀ a : ℚ, l.foldl (fun s x => s + f x) a = a + (l.map f).sum := by
  induction l with
  | nil => intro a; simp
  | cons x xs ih =>
    intro a
    rw [List.foldl_cons, ih (a + f x), List.map_cons, List.sum_cons, add_assoc]

theorem parse_totals (g : GRoute) :
    (parseDirectionsResponse g).totalDistance =
      ((parseDirectionsResponse g).segments.map RouteSegment.distance).sum ∧
    (parseDirectionsResponse g).totalDuration =
      ((parseDirectionsResponse g).segments.map RouteSegment.duration).sum := by
  unfold parseDirectionsResponse
  constructor <;>
    simp [foldl_add_eq_sum, List.map_map, Function.comp_def, toSegment]

theorem calculateRoute_ok_parse {wps : List Waypoint} {resp : GoogleResponse}
    {rd : RouteData} (h : calculateRoute wps resp = Except.ok rd) :
    ∃ g, rd = parseDirectionsResponse g := by
  unfold calculateRoute at h
  cases hr : resp.routes with
  | nil =>
    rw [hr] at h
    split_ifs at h
  | cons g gs =>
    rw [hr] at h
    split_ifs at h
    simp only [Except.ok.injEq] at h
    exact ⟨g, h.symm⟩

theorem routeData_totals_of_ok {wps : List Waypoint} {resp : GoogleResponse}
    {rd : RouteData} (h : calculateRoute wps resp = Except.ok rd) :
    rd.totalDistance = (rd.segments.map RouteSegment.distance).sum ∧
    rd.totalDuration = (rd.segments.map RouteSegment.duration).sum := by
  obtain ⟨g, rfl⟩ := calculateRoute_ok_parse h
  exact parse_totals g

theorem calculateRoute_ok_of_good (wps : List Waypoint) (resp : GoogleResponse)
    (hlen : 2 ≤ wps.length) (hst : resp.status = "OK") (hne : resp.routes ≠ []) :
    ∃ g rest, resp.routes = g :: rest ∧
      calculateRoute wps resp = Except.ok (parseDirectionsResponse g) := by
  unfold calculateRoute
  rw [if_neg (by omega), if_neg (by simp [hst])]
  cases hr : resp.routes with
  | nil => exact absurd hr hne
  | cons g rest => exact ⟨g, rest, rfl, rfl⟩

theorem calculateAllRouteTypes_ok_of_good (wps : List Waypoint)
    (provider : Bool → GoogleResponse) (hlen : 2 ≤ wps.length)
    (hok1 : (provider true).status = "OK") (hne1 : (provider true).routes ≠ [])
    (hok2 : (provider false).status = "OK") (hne2 : (provider false).routes ≠ []) :
    ∃ g1 g2 rest1 rest2, (provider true).routes = g1 :: rest1 ∧
      (provider false).routes = g2 :: rest2 ∧
      calculateAllRouteTypes wps provider = Except.ok
        { shortest := ⟨RouteType.shortest, parseDirectionsResponse g1,
            calculateShortestScore (parseDirectionsResponse g1)⟩
          recommended := ⟨RouteType.recommended, parseDirectionsResponse g2,
            calculateRecommendedScore (parseDirectionsResponse g2)⟩
          scenic := ⟨RouteType.scenic, parseDirectionsResponse g2,
            calculateScenicScore (parseDirectionsResponse g2)⟩ } := by
  obtain ⟨g1, rest1, hr1, hc1⟩ := calculateRoute_ok_of_good wps (provider true) hlen hok1 hne1
  obtain ⟨g2, rest2, hr2, hc2⟩ := calculateRoute_ok_of_good wps (provider false) hlen hok2 hne2
  refine ⟨g1, g2, rest1, rest2, hr1, hr2, ?_⟩
  unfold calculateAllRouteTypes
  rw [hc1, hc2]

/-- C9: whenever both provider calls succeed, the scenic variant produced by
`calculateAllRouteTypes` carries exactly the recommended (order-preserving)
variant's route data — the same total distance, total duration, segments and
overview geometry — and differs only in its type tag and score. -/
theorem claim_C9_scenicReusesRecommended (wps : List Waypoint)
    (provider : Bool → GoogleResponse) (hlen : 2 ≤ wps.length)
    (hok1 : (provider true).status = "OK") (hne1 : (provider true).routes ≠ [])
    (hok2 : (provider false).status = "OK") (hne2 : (provider false).routes ≠ []) :
    ∃ art, calculateAllRouteTypes wps provider = Except.ok art ∧
      art.scenic.data = art.recommended.data ∧
      art.scenic.data.totalDistance = art.recommended.data.totalDistance ∧
      art.scenic.data.totalDuration = art.recommended.data.totalDuration ∧
      art.scenic.data.segments = art.recommended.data.segments ∧
      art.scenic.data.overview = art.recommended.data.overview ∧
      art.scenic.rtype = RouteType.scenic ∧
      art.scenic.score = calculateScenicScore art.recommended.data := by
  obtain ⟨g1, g2, rest1, rest2, hr1, hr2, hcalc⟩ :=
    calculateAllRouteTypes_ok_of_good wps provider hlen hok1 hne1 hok2 hne2
  exact ⟨_, hcalc, rfl, rfl, rfl, rfl, rfl, rfl, rfl⟩

/-- C8: on every successful (re)computation, each persisted route of the
itinerary has `totalDistance` equal to the exact sum of its segments'
distances and `totalDuration` equal to the exact sum of its segments'
durations. -/
theorem claim_C8_totalsAreSegmentSums (it : Itinerary)
    (provider : Bool → GoogleResponse) (pp : Waypoint → Except String (List GPlace))
    (db : List PersistedRoute) (sl el : NamedLocation)
    (hs : it.startLocation = some sl) (he : it.endLocation = some el)
    (hok1 : (provider true).status = "OK") (hne1 : (provider true).routes ≠ [])
    (hok2 : (provider false).status = "OK") (hne2 : (provider false).routes ≠ []) :
    (∃ saved, (calculateRoutesController it provider pp db).response = Except.ok saved) ∧
    (∀ r ∈ (calculateRoutesController it provider pp db).db, r.itineraryId = it.id →
      r.totalDistance = (r.segments.map RouteSegment.distance).sum ∧
      r.totalDuration = (r.segments.map RouteSegment.duration).sum) := by
  have hw : extractWaypoints it = some (locWaypoint sl ::
      (if waypointsFromDayPlans it.dayPlans ≠ [] then waypointsFromDayPlans it.dayPlans
        else it.destinations.map destWaypoint) ++ [locWaypoint el]) := by
    simp [extractWaypoints, hs, he]
  set wps : List Waypoint := locWaypoint sl ::
      (if waypointsFromDayPlans it.dayPlans ≠ [] then waypointsFromDayPlans it.dayPlans
        else it.destinations.map destWaypoint) ++ [locWaypoint el] with hwps
  have hlen : 2 ≤ wps.length := by
    rw [hwps]
    simp
  obtain ⟨g1, g2, rest1, rest2, hr1, hr2, hcalc⟩ :=
    calculateAllRouteTypes_ok_of_good wps provider hlen hok1 hne1 hok2 hne2
  have hctrl := calculateRoutesController_ok it provider pp db wps _ hw hcalc
  rw [hctrl]
  refine ⟨⟨_, rfl⟩, ?_⟩
  intro r hr hid
  rcases List.mem_append.mp hr with hold | hnew
  · have := (List.mem_filter.mp hold).2
    simp at this
    exact absurd hid this
  · have hmk : ∀ t data, r = mkPersistedRoute it pp wps t data →
        (data.totalDistance = (data.segments.map RouteSegment.distance).sum ∧
          data.totalDuration = (data.segments.map RouteSegment.duration).sum) →
        r.totalDistance = (r.segments.map RouteSegment.distance).sum ∧
        r.totalDuration = (r.segments.map RouteSegment.duration).sum := by
      intro t data hr htot
      rw [hr]
      exact htot
    simp only [List.mem_cons, List.not_mem_nil, or_false] at hnew
    rcases hnew with h1 | h1 | h1
    · exact hmk _ _ h1 (parse_totals g1)
    · exact hmk _ _ h1 (parse_totals g2)
    · exact hmk _ _ h1 (parse_totals g2)

/-- C8 witness: a one-leg `OK` provider response for a direct-route
itinerary; the freshly persisted routes satisfy the segment-sum identity. -/
theorem claim_C8_totalsAreSegmentSums_witness :
    (let it : Itinerary :=
      { id := "i5", userId := "u1", tripName := "T", startDate := none, endDate := none,
        startLocation := some { name := "S", placeId := none, latitude := 1, longitude := 2 },
        endLocation := some { name := "E", placeId := none, latitude := 3, longitude := 4 },
        destinations := [], preferences := none, dayPlans := [],
        selectedRoute := none, status := Status.draft, createdAt := 0, updatedAt := 0 };
    let leg : GLeg :=
      { start_address := "A", end_address := "B", start_location := ⟨1, 2⟩,
        end_location := ⟨3, 4⟩, distance := ⟨1000⟩, duration := ⟨600⟩, steps := [] };
    let groute : GRoute :=
      { legs := [leg], bounds := ⟨⟨1, 2⟩, ⟨3, 4⟩⟩,
        overview_polyline := ⟨"xy"⟩, summary := "s" };
    let resp : GoogleResponse := { status := "OK", routes := [groute] };
    let provider : Bool → GoogleResponse := fun _ => resp;
    let pp : Waypoint → Except String (List GPlace) := fun _ => Except.ok [];
    (provider true).status = "OK" ∧ (provider true).routes ≠ [] ∧
      (∃ saved, (calculateRoutesController it provider pp []).response = Except.ok saved) ∧
      (∀ r ∈ (calculateRoutesController it provider pp []).db, r.itineraryId = it.id →
        r.totalDistance = (r.segments.map RouteSegment.distance).sum ∧
        r.totalDuration = (r.segments.map RouteSegment.duration).sum)) := by
  refine ⟨rfl, by decide, ?_⟩
  exact claim_C8_totalsAreSegmentSums _ _ _ _ _ _ rfl rfl rfl (by decide) rfl (by decide)

/-- C9 witness: with a concrete one-leg `OK` response on both calls, the
scenic variant reuses the recommended data verbatim. -/
theorem claim_C9_scenicReusesRecommended_witness :
    (let w1 : Waypoint := { latitude := 1, longitude := 2, name := "S", placeId := none };
    let w2 : Waypoint := { latitude := 3, longitude := 4, name := "E", placeId := none };
    let leg : GLeg :=
      { start_address := "A", end_address := "B", start_location := ⟨1, 2⟩,
        end_location := ⟨3, 4⟩, distance := ⟨1000⟩, duration := ⟨600⟩, steps := [] };
    let groute : GRoute :=
      { legs := [leg], bounds := ⟨⟨1, 2⟩, ⟨3, 4⟩⟩,
        overview_polyline := ⟨"xy"⟩, summary := "s" };
    let resp : GoogleResponse := { status := "OK", routes := [groute] };
    let provider : Bool → GoogleResponse := fun _ => resp;
    2 ≤ [w1, w2].length ∧
      (∃ art, calculateAllRouteTypes [w1, w2] provider = Except.ok art ∧
        art.scenic.data = art.recommended.data ∧
        art.scenic.data.totalDistance = art.recommended.data.totalDistance ∧
        art.scenic.data.totalDuration = art.recommended.data.totalDuration ∧
        art.scenic.data.segments = art.recommended.data.segments ∧
        art.scenic.data.overview = art.recommended.data.overview ∧
        art.scenic.rtype = RouteType.scenic ∧
        art.scenic.score = calculateScenicScore art.recommended.data)) := by
  refine ⟨by decide, ?_⟩
  exact claim_C9_scenicReusesRecommended _ _ (by decide) rfl (by decide) rfl (by decide)

theorem mapUpsert_keys (m : List Attraction) (a : Attraction) :
    (mapUpsert m a).map Attraction.placeId =
      if m.any (fun b => b.placeId == a.placeId) then m.map Attraction.placeId
      else m.map Attraction.placeId ++ [a.placeId] := by
  unfold mapUpsert
  split_ifs with hc
  · rw [List.map_map]
    apply List.map_congr_left
    intro b hb
    by_cases h : (b.placeId == a.placeId) = true
    · simp only [Function.comp_apply, h, if_true]
      exact (eq_of_beq h).symm
    · simp only [Function.comp_apply]
      rw [if_neg h]
  · simp

theorem mapUpsert_keys_nodup {m : List Attraction} {a : Attraction}
    (h : (m.map Attraction.placeId).Nodup) :
    ((mapUpsert m a).map Attraction.placeId).Nodup := by
  rw [mapUpsert_keys]
  split_ifs with hc
  · exact h
  · have hnot : a.placeId ∉ m.map Attraction.placeId := by
      simp only [List.any_eq_true, not_exists, not_and, Bool.not_eq_true] at hc
      simp only [List.mem_map, not_exists, not_and]
      intro b hb heq
      have := hc b hb
      rw [heq] at this
      simp at this
    simp [List.nodup_append, h, hnot]

theorem foldl_mapUpsert_keys_nodup (l : List Attraction) :
    ∀ acc : List Attraction, (acc.map Attraction.placeId).Nodup →
      ((l.foldl mapUpsert acc).map Attraction.placeId).Nodup := by
  induction l with
  | nil => intro acc h; exact h
  | cons x xs ih =>
    intro acc h
    rw [List.foldl_cons]
    exact ih (mapUpsert acc x) (mapUpsert_keys_nodup h)

theorem jsMapDedup_keys_nodup (l : List Attraction) :
    ((jsMapDedup l).map Attraction.placeId).Nodup :=
  foldl_mapUpsert_keys_nodup l [] (by simp)

theorem mem_mapUpsert {acc : List Attraction} {x a : Attraction}
    (h : a ∈ mapUpsert acc x) :
    a = x ∨ (a ∈ acc ∧ (a.placeId == x.placeId) = false) := by
  unfold mapUpsert at h
  split_ifs at h with hc
  · rw [List.mem_map] at h
    obtain ⟨b, hb, hba⟩ := h
    by_cases hbx : (b.placeId == x.placeId) = true
    · rw [if_pos hbx] at hba
      exact Or.inl hba.symm
    · rw [if_neg hbx] at hba
      refine Or.inr ⟨hba ▸ hb, ?_⟩
      rw [← hba]
      simpa using hbx
  · rcases List.mem_append.mp h with h1 | h1
    · refine Or.inr ⟨h1, ?_⟩
      simp only [List.any_eq_true, not_exists, not_and, Bool.not_eq_true] at hc
      exact hc a h1
    · simp only [List.mem_singleton] at h1
      exact Or.inl h1

theorem mapUpsert_key_mem (acc : List Attraction) (x : Attraction) :
    x.placeId ∈ (mapUpsert acc x).map Attraction.placeId := by
  rw [mapUpsert_keys]
  split_ifs with hc
  · simp only [List.any_eq_true] at hc
    obtain ⟨b, hb, hbx⟩ := hc
    rw [List.mem_map]
    exact ⟨b, hb, eq_of_beq hbx⟩
  · simp

theorem mapUpsert_key_preserved {acc : List Attraction} {k : String} (x : Attraction)
    (h : k ∈ acc.map Attraction.placeId) :
    k ∈ (mapUpsert acc x).map Attraction.placeId := by
  rw [mapUpsert_keys]
  split_ifs with hc
  · exact h
  · exact List.mem_append.mpr (Or.inl h)

theorem foldl_mapUpsert_key_preserved (l : List Attraction) :
    ∀ (acc : List Attraction) (k : String), k ∈ acc.map Attraction.placeId →
      k ∈ (l.foldl mapUpsert acc).map Attraction.placeId := by
  induction l with
  | nil => intro acc k h; exact h
  | cons x xs ih =>
    intro acc k h
    rw [List.foldl_cons]
    exact ih (mapUpsert acc x) k (mapUpsert_key_preserved x h)

theorem jsMapDedup_keys_complete (l : List Attraction) :
    ∀ a ∈ l, a.placeId ∈ (jsMapDedup l).map Attraction.placeId := by
  unfold jsMapDedup
  suffices hgen : ∀ acc : List Attraction, ∀ a ∈ l,
      a.placeId ∈ (l.foldl mapUpsert acc).map Attraction.placeId from hgen []
  induction l with
  | nil => intro acc a ha; cases ha
  | cons x xs ih =>
    intro acc a ha
    rw [List.foldl_cons]
    rcases List.mem_cons.mp ha with rfl | hxs
    · exact foldl_mapUpsert_key_preserved xs (mapUpsert acc a) a.placeId
        (mapUpsert_key_mem acc a)
    · exact ih (mapUpsert acc x) a hxs

theorem foldl_mapUpsert_last (l : List Attraction) :
    ∀ (acc : List Attraction) (a : Attraction), a ∈ l.foldl mapUpsert acc →
      (l.filter (fun b => b.placeId == a.placeId)).getLast? = some a ∨
      ((l.filter (fun b => b.placeId == a.placeId)) = [] ∧ a ∈ acc) := by
  induction l with
  | nil => intro acc a h; exact Or.inr ⟨rfl, h⟩
  | cons x xs ih =>
    intro acc a h
    rw [List.foldl_cons] at h
    rcases ih (mapUpsert acc x) a h with hlast | ⟨hfil, hmem⟩
    · left
      have hne : xs.filter (fun b => b.placeId == a.placeId) ≠ [] := by
        intro hnil
        rw [hnil] at hlast
        cases hlast
      rw [List.filter_cons]
      split_ifs with hpx
      · cases hys : xs.filter (fun b => b.placeId == a.placeId) with
        | nil => exact absurd hys hne
        | cons y ys =>
          rw [hys] at hlast
          rw [List.getLast?_cons_cons]
          exact hlast
      · exact hlast
    · by_cases hpx : (x.placeId == a.placeId) = true
      · left
        have hax : a = x := by
          rcases mem_mapUpsert hmem with h1 | ⟨_, h2⟩
          · exact h1
          · rw [beq_eq_false_iff_ne] at h2
            exact absurd (eq_of_beq hpx).symm h2
        rw [List.filter_cons, if_pos hpx, hfil, hax]
        rfl
      · right
        constructor
        · rw [List.filter_cons, if_neg hpx]
          exact hfil
        · rcases mem_mapUpsert hmem with h1 | ⟨h2, _⟩
          · rw [h1] at hpx
            simp at hpx
          · exact h2

theorem jsMapDedup_last (l : List Attraction) (a : Attraction) (h : a ∈ jsMapDedup l) :
    (l.filter (fun b => b.placeId == a.placeId)).getLast? = some a := by
  rcases foldl_mapUpsert_last l [] a h with h1 | ⟨_, h2⟩
  · exact h1
  · cases h2

theorem mapUpsert_length (m : List Attraction) (a : Attraction) :
    (mapUpsert m a).length ≤ m.length + 1 := by
  unfold mapUpsert
  split_ifs <;> simp

theorem foldl_mapUpsert_length (l : List Attraction) :
    ∀ acc : List Attraction, (l.foldl mapUpsert acc).length ≤ acc.length + l.length := by
  induction l with
  | nil => intro acc; simp
  | cons x xs ih =>
    intro acc
    rw [List.foldl_cons]
    have h1 := ih (mapUpsert acc x)
    have h2 := mapUpsert_length acc x
    simp only [List.length_cons]
    omega

theorem jsMapDedup_length (l : List Attraction) : (jsMapDedup l).length ≤ l.length := by
  have := foldl_mapUpsert_length l []
  simpa using this

theorem collectAttractions_ok (f : Waypoint → List GPlace) (ws : List Waypoint) :
    collectAttractions (fun w => Except.ok (f w)) ws =
      Except.ok (ws.flatMap (fun w => ((f w).take 5).map toAttraction)) := by
  induction ws with
  | nil => rfl
  | cons w ws ih =>
    unfold collectAttractions
    rw [ih]
    simp

theorem flatMap_take5_length (f : Waypoint → List GPlace) (ws : List Waypoint) :
    (ws.flatMap (fun w => ((f w).take 5).map toAttraction)).length ≤ 5 * ws.length := by
  induction ws with
  | nil => simp
  | cons w ws ih =>
    rw [List.flatMap_cons, List.length_append]
    have h1 : (((f w).take 5).map toAttraction).length ≤ 5 := by
      rw [List.length_map, List.length_take]
      omega
    simp only [List.length_cons]
    omega

/-- C5, counterexample: when the same place identifier is collected from two
waypoints with different records, the JS `Map` keeps the LAST occurrence's
record, not the first: with `X` rated 1 at waypoint A and rated 2 at
waypoint B, the returned list is the B record alone, so the first occurrence
is not the one kept. -/
theorem claim_C5_counterexample :
    (let w1 : Waypoint := { latitude := 1, longitude := 2, name := "A", placeId := none };
    let w2 : Waypoint := { latitude := 3, longitude := 4, name := "B", placeId := none };
    let p1 : GPlace :=
      { id := "X", displayName := none, name := "P1", location := none,
        types := [], rating := some 1 };
    let p2 : GPlace :=
      { id := "X", displayName := none, name := "P2", location := none,
        types := [], rating := some 2 };
    let pp : Waypoint → Except String (List GPlace) :=
      fun w => Except.ok (if w.name = "A" then [p1] else [p2]);
    findAttractionsAlongRoute pp [] [w1, w2] = [toAttraction p2] ∧
      findAttractionsAlongRoute pp [] [w1, w2] ≠ [toAttraction p1]) := by
  exact ⟨by decide, by decide⟩

/-- C5 as amended: for every sequence of per-waypoint nearby-search results,
the returned list keeps at most 5 attractions per waypoint (at most 5 ×
#waypoints in total) and contains no two entries with the same place
identifier; every collected identifier is represented; and when the same
identifier is collected from several waypoints, the LAST occurrence's record
is the one kept (the only change the counterexample forces). -/
theorem claim_C5_attractionDedup (f : Waypoint → List GPlace)
    (segments : List RouteSegment) (waypoints : List Waypoint) :
    (findAttractionsAlongRoute (fun w => Except.ok (f w)) segments waypoints).length ≤
      5 * waypoints.length ∧
    ((findAttractionsAlongRoute (fun w => Except.ok (f w)) segments waypoints).map
      Attraction.placeId).Nodup ∧
    (∀ a ∈ waypoints.flatMap (fun w => ((f w).take 5).map toAttraction),
      a.placeId ∈ (findAttractionsAlongRoute (fun w => Except.ok (f w)) segments
        waypoints).map Attraction.placeId) ∧
    (∀ a ∈ findAttractionsAlongRoute (fun w => Except.ok (f w)) segments waypoints,
      ((waypoints.flatMap (fun w => ((f w).take 5).map toAttraction)).filter
        (fun b => b.placeId == a.placeId)).getLast? = some a) := by
  have hfind : findAttractionsAlongRoute (fun w => Except.ok (f w)) segments waypoints =
      jsMapDedup (waypoints.flatMap (fun w => ((f w).take 5).map toAttraction)) := by
    unfold findAttractionsAlongRoute
    rw [collectAttractions_ok]
  rw [hfind]
  refine ⟨?_, jsMapDedup_keys_nodup _, jsMapDedup_keys_complete _, ?_⟩
  · calc (jsMapDedup _).length ≤ _ := jsMapDedup_length _
      _ ≤ 5 * waypoints.length := flatMap_take5_length f waypoints
  · intro a ha
    exact jsMapDedup_last _ a ha

/-- C5 witness: the amended statement applied to the counterexample's
two-waypoint scenario (duplicate identifier `X` across both waypoints). -/
theorem claim_C5_attractionDedup_witness :
    (let w1 : Waypoint := { latitude := 1, longitude := 2, name := "A", placeId := none };
    let w2 : Waypoint := { latitude := 3, longitude := 4, name := "B", placeId := none };
    let p1 : GPlace :=
      { id := "X", displayName := none, name := "P1", location := none,
        types := [], rating := some 1 };
    let p2 : GPlace :=
      { id := "X", displayName := none, name := "P2", location := none,
        types := [], rating := some 2 };
    let f : Waypoint → List GPlace := fun w => if w.name = "A" then [p1] else [p2];
    (findAttractionsAlongRoute (fun w => Except.ok (f w)) [] [w1, w2]).length ≤
      5 * [w1, w2].length ∧
    ((findAttractionsAlongRoute (fun w => Except.ok (f w)) [] [w1, w2]).map
      Attraction.placeId).Nodup ∧
    (∀ a ∈ [w1, w2].flatMap (fun w => ((f w).take 5).map toAttraction),
      a.placeId ∈ (findAttractionsAlongRoute (fun w => Except.ok (f w)) []
        [w1, w2]).map Attraction.placeId) ∧
    (∀ a ∈ findAttractionsAlongRoute (fun w => Except.ok (f w)) [] [w1, w2],
      (([w1, w2].flatMap (fun w => ((f w).take 5).map toAttraction)).filter
        (fun b => b.placeId == a.placeId)).getLast? = some a)) :=
  claim_C5_attractionDedup _ [] _

/-- C6, counterexample: with waypoint A succeeding (one place) and waypoint B
failing, the whole enrichment returns the empty list even though A's
contribution had been collected — the contributions of other waypoints are
discarded, not returned. -/
theorem claim_C6_counterexample :
    (let w1 : Waypoint := { latitude := 1, longitude := 2, name := "A", placeId := none };
    let w2 : Waypoint := { latitude := 3, longitude := 4, name := "B", placeId := none };
    let p1 : GPlace :=
      { id := "X", displayName := none, name := "P1", location := none,
        types := [], rating := some 1 };
    let pp : Waypoint → Except String (List GPlace) :=
      fun w => if w.name = "A" then Except.ok [p1] else Except.error "rate limited";
    findAttractionsAlongRoute pp [] [w1, w2] = [] ∧
      findAttractionsAlongRoute pp [] [w1] = [toAttraction p1]) := by
  exact ⟨by decide, by decide⟩

/-- C6 as amended: a places-provider failure is never propagated (the
function always returns a plain list), but a failure for any waypoint
collapses the whole result to the empty list — the attractions collected
from the other waypoints are discarded, not returned; only when every
waypoint lookup succeeds is the collected (deduplicated) list returned. -/
theorem claim_C6_enrichmentFailureCollapses (pp : Waypoint → Except String (List GPlace))
    (segments : List RouteSegment) (waypoints : List Waypoint)
    (h : ∃ w ∈ waypoints, ∃ e, pp w = Except.error e) :
    findAttractionsAlongRoute pp segments waypoints = [] ∧
    (∀ f : Waypoint → List GPlace,
      findAttractionsAlongRoute (fun w => Except.ok (f w)) segments waypoints =
        jsMapDedup (waypoints.flatMap (fun w => ((f w).take 5).map toAttraction))) := by
  constructor
  · have hcol : ∃ e, collectAttractions pp waypoints = Except.error e := by
      induction waypoints with
      | nil =>
        obtain ⟨w, hw, _⟩ := h
        cases hw
      | cons x xs ih =>
        unfold collectAttractions
        cases hx : pp x with
        | error e => exact ⟨e, rfl⟩
        | ok nearby =>
          obtain ⟨w, hw, e, hwe⟩ := h
          rcases List.mem_cons.mp hw with rfl | hxs
          · rw [hx] at hwe
            cases hwe
          · obtain ⟨e', he'⟩ := ih ⟨w, hxs, e, hwe⟩
            rw [he']
            exact ⟨e', rfl⟩
    obtain ⟨e, he⟩ := hcol
    unfold findAttractionsAlongRoute
    rw [he]
  · intro f
    unfold findAttractionsAlongRoute
    rw [collectAttractions_ok]

/-- C6 witness: the amended statement applied to the counterexample's
concrete failing provider. -/
theorem claim_C6_enrichmentFailureCollapses_witness :
    (let w1 : Waypoint := { latitude := 1, longitude := 2, name := "A", placeId := none };
    let w2 : Waypoint := { latitude := 3, longitude := 4, name := "B", placeId := none };
    let p1 : GPlace :=
      { id := "X", displayName := none, name := "P1", location := none,
        types := [], rating := some 1 };
    let pp : Waypoint → Except String (List GPlace) :=
      fun w => if w.name = "A" then Except.ok [p1] else Except.error "rate limited";
    (∃ w ∈ [w1, w2], ∃ e, pp w = Except.error e) ∧
      findAttractionsAlongRoute pp [] [w1, w2] = [] ∧
      (∀ f : Waypoint → List GPlace,
        findAttractionsAlongRoute (fun w => Except.ok (f w)) [] [w1, w2] =
          jsMapDedup ([w1, w2].flatMap (fun w => ((f w).take 5).map toAttraction)))) := by
  refine ⟨⟨{ latitude := 3, longitude := 4, name := "B", placeId := none },
    by decide, "rate limited", rfl⟩, ?_⟩
  exact claim_C6_enrichmentFailureCollapses _ [] _
    ⟨{ latitude := 3, longitude := 4, name := "B", placeId := none },
      by decide, "rate limited", rfl⟩

/-- C1 witness: at `now` mid-trip, a currently-active planned-active itinerary
is classified upcoming with the `isCurrentlyActive` flag and one day
remaining. -/
theorem claim_C1_tripClassification_witness :
    (let it : Itinerary :=
      { id := "i2", userId := "u1", tripName := "Trip", startDate := some 0,
        endDate := some 86400000, startLocation := none, endLocation := none,
        destinations := [], preferences := none, dayPlans := [],
        selectedRoute := none, status := Status.active, createdAt := 0,
        updatedAt := 0 };
    it ∈ [it] ∧
      (∃ td ∈ (categorizeTrips 43200000 (fun _ => false) [it]).upcomingTrips,
        td.itinerary = it ∧ td.isCurrentlyActive = true ∧
        td.daysRemaining = some (daysRemainingAt 43200000 86400000))) := by
  refine ⟨List.mem_singleton.mpr rfl, ?_⟩
  exact (claim_C1_tripClassification 43200000 (fun _ => false) _ _
    (List.mem_singleton.mpr rfl)).2.2.2 86400000 rfl (by decide) rfl

end ItineraryService
